import Mathlib

/-!
Verification of the incremental markdown-to-PDF conversion subsystem.

This file shallowly embeds the core logic of the repository
(`markdown_to_pdf/converter.py`, `markdown_to_pdf/ebook_converter.py`,
`convert_md_to_pdf.py`) in Lean 4 and proves the specified properties of
the staleness cache, the conversion pipeline, the diagram render adapters
with their retry logic, the browser session teardown, and the batch
orchestrators.

Modelling conventions:
- Python strings are `List Char`; file contents are `List Nat` (byte lists).
- Machine floats (margin values, bounding boxes) are modelled as `ℚ`.
- External effects (the browser, the PlantUML service, pandoc, the
  filesystem) are modelled as explicit environment values recording what
  each external call would return; exceptions become `Except` values.
- `markdown_to_pdf/verification.py` (the `DocumentStateManager`) is not
  part of the provided sources; its decision function is modelled from the
  spec where noted.
-/

namespace MDPDF

/-! ## Basic character-list utilities (Python string operations) -/

/-- Characters of a string literal. -/
def strChars (s : String) : List Char :=
  s.data

/-- Python `str.strip()` on a character list (leading and trailing whitespace). -/
def trimChars (cs : List Char) : List Char :=
  ((cs.dropWhile Char.isWhitespace).reverse.dropWhile Char.isWhitespace).reverse

/-- Helper for `splitWS`: accumulates the current token (reversed). -/
def splitWSGo : List Char → List Char → List (List Char)
  | [], acc => if acc.isEmpty then [] else [acc.reverse]
  | c :: cs, acc =>
    if c.isWhitespace then
      if acc.isEmpty then splitWSGo cs [] else acc.reverse :: splitWSGo cs []
    else splitWSGo cs (c :: acc)

/-- Python `str.split()` with no argument: split on whitespace runs, dropping
empty tokens. -/
def splitWS (cs : List Char) : List (List Char) :=
  splitWSGo cs []

/-- Decimal digit character. -/
def digitChar (n : Nat) : Char :=
  Char.ofNat (48 + n)

/-- Fuelled decimal formatting of a natural number. -/
def natCharsGo : Nat → Nat → List Char → List Char
  | 0, _, acc => acc
  | fuel + 1, n, acc =>
    if n < 10 then digitChar n :: acc
    else natCharsGo fuel (n / 10) (digitChar (n % 10) :: acc)

/-- Decimal representation of a natural number (Python `str(i)` in f-strings). -/
def natChars (n : Nat) : List Char :=
  natCharsGo (n + 1) n []

/-- Lowercase a character list (Python `str.lower()`, ASCII-faithful). -/
def lowerChars (cs : List Char) : List Char :=
  cs.map Char.toLower

/-- Boolean prefix test on character lists. -/
def beginsWith : List Char → List Char → Bool
  | _, [] => true
  | [], _ :: _ => false
  | c :: cs, d :: ds => c = d && beginsWith cs ds

/-- Boolean containment of `needle` in `hay` (Python `needle in hay` on strings). -/
def containsSub (hay needle : List Char) : Bool :=
  match hay with
  | [] => needle.isEmpty
  | c :: t => beginsWith (c :: t) needle || containsSub t needle

/-- Decidable equality for `Except`, used to evaluate witnesses. -/
instance instDecEqExcept {ε α : Type} [DecidableEq ε] [DecidableEq α] :
    DecidableEq (Except ε α) := fun a b =>
  match a, b with
  | .error x, .error y =>
    if h : x = y then isTrue (by rw [h]) else isFalse (by simp [h])
  | .ok x, .ok y =>
    if h : x = y then isTrue (by rw [h]) else isFalse (by simp [h])
  | .error _, .ok _ => isFalse (by simp)
  | .ok _, .error _ => isFalse (by simp)

/-! ## Data model: DocumentRecord and the Staleness Oracle

`DocumentRecord` is the persisted cache entry of the State Store
(`markdown_to_pdf/verification.py`). Digests and fingerprints are opaque
values, modelled as `Nat`. -/

structure DocumentRecord where
  key : List Char
  sourceDigest : Nat
  artifactDigest : Nat
  fingerprint : Nat
deriving DecidableEq, Repr

/-- Modelled from the spec: `DocumentStateManager.needs_regeneration` lives in
`markdown_to_pdf/verification.py`, which is absent from the provided sources.
The spec (§4.3 Staleness Oracle) gives its logic for a looked-up record:
absent record → regenerate; missing artifact → regenerate; source digest
mismatch → regenerate; configuration fingerprint mismatch → regenerate;
otherwise up to date. The force flag is handled by the caller
(`_convert_single_file`), not here, matching the call sites in
`converter.py`. -/
def needs_regeneration (record : Option DocumentRecord) (currentSourceDigest : Nat)
    (artifactExists : Bool) (currentFingerprint : Nat) : Bool :=
  match record with
  | none => true
  | some r =>
    if artifactExists = false then true
    else if r.sourceDigest ≠ currentSourceDigest then true
    else if r.fingerprint ≠ currentFingerprint then true
    else false

/-- The Staleness Oracle exactly as the spec words it (§4.3), force flag
included, for the refinement comparison:
if `forceFlag`, always true; else if `record` absent, true; else if
`!artifactExists`, true; else if `record.sourceDigest != currentSourceDigest`,
true; else if `record.fingerprint != currentFingerprint`, true; else false. -/
def needsRegenerationSpec (forceFlag : Bool) (record : Option DocumentRecord)
    (currentSourceDigest : Nat) (artifactExists : Bool) (currentFingerprint : Nat) : Bool :=
  if forceFlag then true
  else
    match record with
    | none => true
    | some r =>
      if artifactExists = false then true
      else if r.sourceDigest ≠ currentSourceDigest then true
      else if r.fingerprint ≠ currentFingerprint then true
      else false

/-- The skip-vs-regenerate decision of
`MarkdownToPDFConverter._convert_single_file` (converter.py:1613-1624):
if `force_regenerate`, convert; else if the output PDF is missing,
regenerate on the fast path (without touching the store); else consult
`needs_regeneration` on the stored record. Returns `true` when the document
is regenerated, `false` when it is skipped. The store is passed as a lookup
function so that (non-)consultation of the record is observable. -/
def convert_single_file_decision (forceRegenerate outputPdfExists : Bool)
    (store : List Char → Option DocumentRecord) (filename : List Char)
    (currentSourceDigest currentFingerprint : Nat) : Bool :=
  if forceRegenerate then true
  else if outputPdfExists then
    needs_regeneration (store filename) currentSourceDigest true currentFingerprint
  else true

/-! ## Margin validation and parsing

Embeds `MarkdownToPDFConverter._validate_margin` (converter.py:227-261) and
`_parse_margins` (converter.py:263-285). A margin value is matched against
the regex `^(-?\d+(?:\.\d+)?(?:[eE][+-]?\d+)?)\s*(cm|in|mm|pt|px)?$` after
stripping; the unit defaults to inches; the value converted to inches must
lie in [0, 3]. Python float arithmetic is modelled by exact rationals. -/

inductive MarginUnit where
  | cm
  | inch
  | mm
  | pt
  | px
deriving DecidableEq, Repr

/-- Longest digit prefix and the remainder (the regex atoms `\d+`). -/
def takeDigits : List Char → List Char × List Char
  | [] => ([], [])
  | c :: cs =>
    if c.isDigit then
      let r := takeDigits cs
      (c :: r.1, r.2)
    else ([], c :: cs)

/-- Value of a digit string. -/
def digitsToNat (ds : List Char) : Nat :=
  ds.foldl (fun a c => 10 * a + (c.toNat - 48)) 0

/-- Optional fractional part `(?:\.\d+)?`: a dot must be followed by at least
one digit, otherwise the whole match fails. -/
def readFrac : List Char → Option (List Char × List Char)
  | '.' :: r =>
    match takeDigits r with
    | ([], _) => none
    | (fp, r2) => some (fp, r2)
  | cs => some ([], cs)

/-- Optional exponent `(?:[eE][+-]?\d+)?`; returns (negative?, magnitude,
rest). An `e`/`E` not followed by digits fails the whole match. -/
def readExp : List Char → Option (Bool × Nat × List Char)
  | c :: r =>
    if c = 'e' ∨ c = 'E' then
      let s : Bool × List Char :=
        match r with
        | '+' :: rr => (false, rr)
        | '-' :: rr => (true, rr)
        | _ => (false, r)
      match takeDigits s.2 with
      | ([], _) => none
      | (ed, r3) => some (s.1, digitsToNat ed, r3)
    else some (false, 0, c :: r)
  | [] => some (false, 0, [])

/-- Optional unit `(cm|in|mm|pt|px)?`, defaulting to inches when absent
(converter.py:239-241). -/
def readUnit : List Char → Option (MarginUnit × List Char)
  | 'c' :: 'm' :: r => some (.cm, r)
  | 'i' :: 'n' :: r => some (.inch, r)
  | 'm' :: 'm' :: r => some (.mm, r)
  | 'p' :: 't' :: r => some (.pt, r)
  | 'p' :: 'x' :: r => some (.px, r)
  | r => some (.inch, r)

/-- Exact rational value as an unreduced fraction, the executable stand-in
for Python float arithmetic on margin values (and, later, bounding boxes).
The denominator is kept unnormalized so every operation reduces in the
kernel; `toRat` gives the mathematical value. -/
structure Frac where
  num : Int
  den : Nat
deriving DecidableEq, Repr

/-- Mathematical value of a fraction. -/
def Frac.toRat (f : Frac) : ℚ :=
  (f.num : ℚ) / (f.den : ℚ)

/-- Executable test `f < 0` (for a positive denominator). -/
def Frac.isNeg (f : Frac) : Bool :=
  f.num < 0

/-- Executable test `3 < f` (for a positive denominator). -/
def Frac.gtThree (f : Frac) : Bool :=
  3 * (f.den : Int) < f.num

/-- Numeric value of a matched number: sign, integer digits, fraction
digits, exponent; the exact rational the Python float literal denotes. -/
def margValue (neg : Bool) (ip fp : List Char) (en : Bool) (ed : Nat) : Frac :=
  let base : Frac :=
    ⟨(digitsToNat ip : Int) * ((10 : Nat) ^ fp.length : Nat) + (digitsToNat fp : Int),
     (10 : Nat) ^ fp.length⟩
  let scaled : Frac :=
    if en then ⟨base.num, base.den * (10 : Nat) ^ ed⟩
    else ⟨base.num * ((10 : Nat) ^ ed : Nat), base.den⟩
  if neg then ⟨-scaled.num, scaled.den⟩ else scaled

/-- The full regex match of `_validate_margin` (converter.py:232): number,
optional whitespace, optional unit, end of string, on the stripped input. -/
def readSign : List Char → Bool × List Char
  | '-' :: r => (true, r)
  | cs => (false, cs)

def parseMarginChars (cs0 : List Char) : Option (Frac × MarginUnit) :=
  let sgn : Bool × List Char := readSign (trimChars cs0)
  match takeDigits sgn.2 with
  | ([], _) => none
  | (ip, cs2) =>
    match readFrac cs2 with
    | none => none
    | some (fp, cs3) =>
      match readExp cs3 with
      | none => none
      | some (en, ed, cs4) =>
        match readUnit (cs4.dropWhile Char.isWhitespace) with
        | none => none
        | some (u, cs6) =>
          if cs6.isEmpty then some (margValue sgn.1 ip fp en ed, u) else none

/-- Unit conversion to inches (converter.py:243-253): cm divides by 2.54,
mm by 25.4, pt by 72, px by 96. -/
def toInchesF (v : Frac) : MarginUnit → Frac
  | .cm => ⟨v.num * 100, v.den * 254⟩
  | .mm => ⟨v.num * 10, v.den * 254⟩
  | .pt => ⟨v.num, v.den * 72⟩
  | .px => ⟨v.num, v.den * 96⟩
  | .inch => v

/-- The function `_validate_margin` (converter.py:227-261): raise on regex mismatch, on a
negative value, or on a value above 3 inches; otherwise return the
normalized value (modelled as the parsed value-unit pair). -/
def validate_margin (s : List Char) : Except (List Char) (Frac × MarginUnit) :=
  match parseMarginChars s with
  | none => .error (strChars "Invalid margin format")
  | some (v, u) =>
    let vi := toInchesF v u
    if vi.isNeg then .error (strChars "Margin cannot be negative")
    else if vi.gtThree then .error (strChars "Margin too large")
    else .ok (v, u)

structure Margins where
  top : Frac × MarginUnit
  right : Frac × MarginUnit
  bottom : Frac × MarginUnit
  left : Frac × MarginUnit
deriving DecidableEq, Repr

/-- The function `_parse_margins` (converter.py:263-285): split the margin specification
on whitespace; 1 value applies to all sides, 2 values are
vertical/horizontal, 4 values are top/right/bottom/left, anything else
raises ValueError. -/
def parse_margins (pageMargins : List Char) : Except (List Char) Margins :=
  match splitWS pageMargins with
  | [a] => do
    let m ← validate_margin a
    pure ⟨m, m, m, m⟩
  | [a, b] => do
    let v ← validate_margin a
    let h ← validate_margin b
    pure ⟨v, h, v, h⟩
  | [a, b, c, d] => do
    let t ← validate_margin a
    let r ← validate_margin b
    let bo ← validate_margin c
    let l ← validate_margin d
    pure ⟨t, r, bo, l⟩
  | _ => .error (strChars "Invalid margin format count")

/-! ## Document content and diagram replacement

A markdown document is modelled as a list of blocks: plain text, fenced
mermaid/plantuml diagram blocks, already-substituted image references, and
(ebook only) diagram error placeholders. A render adapter is a function
from diagram source to `(success, errorMessage)`, matching the Python
`render(...) -> tuple[bool, str]` signature. -/

inductive Block where
  | text (s : List Char)
  | mermaid (code : List Char)
  | plantuml (code : List Char)
  | image (idx : Nat)
  | errorPlaceholder (diagramType : List Char) (msg : List Char)
deriving DecidableEq, Repr

/-- The mermaid diagram sources of a document, in order. -/
def mermaidCodes : List Block → List (List Char)
  | [] => []
  | .mermaid code :: rest => code :: mermaidCodes rest
  | .text _ :: rest => mermaidCodes rest
  | .plantuml _ :: rest => mermaidCodes rest
  | .image _ :: rest => mermaidCodes rest
  | .errorPlaceholder _ _ :: rest => mermaidCodes rest

/-- The function `MarkdownToPDFConverter._replace_mermaid_with_images`
(converter.py:846-924): render each mermaid block in order, replacing it
with an image reference; on the first render failure raise
`RuntimeError(f"Mermaid diagram {i} failed to render: {error_msg}")`,
aborting the document (converter.py:908-909). -/
def replace_mermaid_pdf (render : List Char → Bool × List Char) (i : Nat) :
    List Block → Except (List Char) (List Block)
  | [] => .ok []
  | .mermaid code :: rest =>
    match render code with
    | (true, _) => do
      let r ← replace_mermaid_pdf render (i + 1) rest
      pure (.image i :: r)
    | (false, msg) =>
      .error (strChars "Mermaid diagram " ++ natChars i ++ strChars " failed to render: " ++ msg)
  | .text s :: rest => do
    let r ← replace_mermaid_pdf render i rest
    pure (.text s :: r)
  | .plantuml code :: rest => do
    let r ← replace_mermaid_pdf render i rest
    pure (.plantuml code :: r)
  | .image idx :: rest => do
    let r ← replace_mermaid_pdf render i rest
    pure (.image idx :: r)
  | .errorPlaceholder t m :: rest => do
    let r ← replace_mermaid_pdf render i rest
    pure (.errorPlaceholder t m :: r)

/-- The function `MarkdownToPDFConverter._replace_plantuml_with_images`
(converter.py:926-1003): same shape as the mermaid pass; the first failure
raises `RuntimeError(f"PlantUML diagram {i} failed to render: ...")`
(converter.py:986-987). -/
def replace_plantuml_pdf (render : List Char → Bool × List Char) (i : Nat) :
    List Block → Except (List Char) (List Block)
  | [] => .ok []
  | .plantuml code :: rest =>
    match render code with
    | (true, _) => do
      let r ← replace_plantuml_pdf render (i + 1) rest
      pure (.image i :: r)
    | (false, msg) =>
      .error (strChars "PlantUML diagram " ++ natChars i ++ strChars " failed to render: " ++ msg)
  | .text s :: rest => do
    let r ← replace_plantuml_pdf render i rest
    pure (.text s :: r)
  | .mermaid code :: rest => do
    let r ← replace_plantuml_pdf render i rest
    pure (.mermaid code :: r)
  | .image idx :: rest => do
    let r ← replace_plantuml_pdf render i rest
    pure (.image idx :: r)
  | .errorPlaceholder t m :: rest => do
    let r ← replace_plantuml_pdf render i rest
    pure (.errorPlaceholder t m :: r)

/-- The function `MarkdownToEbookConverter._replace_mermaid_with_images`
(ebook_converter.py:705-792): a failed render does not abort; the block is
replaced by the formatted error placeholder of
`_create_diagram_error_placeholder` and processing continues. -/
def replace_mermaid_ebook (render : List Char → Bool × List Char) (i : Nat) :
    List Block → List Block
  | [] => []
  | .mermaid code :: rest =>
    match render code with
    | (true, _) => .image i :: replace_mermaid_ebook render (i + 1) rest
    | (false, msg) =>
      .errorPlaceholder (strChars "Mermaid") msg :: replace_mermaid_ebook render (i + 1) rest
  | .text s :: rest => .text s :: replace_mermaid_ebook render i rest
  | .plantuml code :: rest => .plantuml code :: replace_mermaid_ebook render i rest
  | .image idx :: rest => .image idx :: replace_mermaid_ebook render i rest
  | .errorPlaceholder t m :: rest =>
    .errorPlaceholder t m :: replace_mermaid_ebook render i rest

/-! ## The per-document PDF pipeline

Embeds `MarkdownToPDFConverter._convert_md_to_pdf` (converter.py:1643-1748).
External effects appear as environment fields: the per-diagram render
results, pandoc's exit code, and the bytes the final `page.pdf` call writes
to disk (`none` when `_convert_html_to_pdf` reports failure). The body runs
inside `try`/`except`, so a raised error (diagram failure, margin
ValueError) yields `False` with the error logged; `save_document_state` is
called only on the success path (converter.py:1734-1741), with the artifact
digest `calculate_file_hash(output_pdf)` computed from the written bytes. -/

/-- The arguments of the `save_document_state` call (converter.py:1736-1739):
filename, source digest, artifact digest, and the fingerprinted
configuration (style profile, diagram max width/height, margin string,
page-break flag `True`). -/
structure SavedRecord where
  key : List Char
  sourceDigest : Nat
  artifactDigest : Nat
  styleProfile : List Char
  diagramWidth : Nat
  diagramHeight : Nat
  pageMargins : List Char
  pageBreaks : Bool
deriving DecidableEq, Repr

structure PdfPipelineEnv where
  filename : List Char
  sourceBytes : List Nat
  blocks : List Block
  mermaidRender : List Char → Bool × List Char
  plantumlRender : List Char → Bool × List Char
  pandocExitCode : Nat
  pageMargins : List Char
  styleProfile : List Char
  diagramWidth : Nat
  diagramHeight : Nat
  pdfProduce : Option (List Nat)
  hash : List Nat → Nat

structure PdfResult where
  success : Bool
  saved : Option SavedRecord
  loggedError : Option (List Char)
deriving Repr

/-- One failed-document result: `False`, no state write, the exception
logged as `f"Error converting {md_file.name}: {e}"` (converter.py:1747). -/
def pdfFailLogged (filename e : List Char) : PdfResult :=
  ⟨false, none, some (strChars "Error converting " ++ filename ++ strChars ": " ++ e)⟩

/-- The function `_convert_md_to_pdf` (converter.py:1643-1748), stage by stage in source
order: mermaid pass (may raise), plantuml pass (may raise), pandoc
(non-zero exit returns False), margin parsing (may raise ValueError),
HTML-to-PDF production, then — only on confirmed success — the
`save_document_state` write with the digest of the written artifact
bytes. -/
def convert_md_to_pdf (env : PdfPipelineEnv) : PdfResult :=
  match replace_mermaid_pdf env.mermaidRender 0 env.blocks with
  | .error e => pdfFailLogged env.filename e
  | .ok c1 =>
    match replace_plantuml_pdf env.plantumlRender 0 c1 with
    | .error e => pdfFailLogged env.filename e
    | .ok _c2 =>
      if env.pandocExitCode ≠ 0 then
        ⟨false, none, some (strChars "Pandoc failed")⟩
      else
        match parse_margins env.pageMargins with
        | .error e => pdfFailLogged env.filename e
        | .ok _margins =>
          match env.pdfProduce with
          | none => ⟨false, none, some (strChars "Failed to convert HTML to PDF")⟩
          | some pdfBytes =>
            ⟨true,
             some ⟨env.filename, env.hash env.sourceBytes, env.hash pdfBytes,
                   env.styleProfile, env.diagramWidth, env.diagramHeight,
                   env.pageMargins, true⟩,
             none⟩

end MDPDF

namespace MDPDF

/-- C1: the skip-vs-regenerate decision of `_convert_single_file` agrees with
the spec's Staleness Oracle on every input (force flag, record presence,
artifact existence, source digest, configuration fingerprint), and with the
force flag unset and the output PDF missing the decision is `regenerate`
and is independent of the stored record (the store is not consulted). -/
theorem staleness_oracle_correct :
    (∀ (force ex : Bool) (store : List Char → Option DocumentRecord)
        (fn : List Char) (src fp : Nat),
      convert_single_file_decision force ex store fn src fp
        = needsRegenerationSpec force (store fn) src ex fp)
    ∧ (∀ (store store₂ : List Char → Option DocumentRecord)
        (fn : List Char) (src fp : Nat),
      convert_single_file_decision false false store fn src fp = true
      ∧ convert_single_file_decision false false store fn src fp
          = convert_single_file_decision false false store₂ fn src fp) := by
  constructor
  · intro force ex store fn src fp
    cases force with
    | true => rfl
    | false =>
      cases ex with
      | true =>
        cases h : store fn with
        | none => simp [convert_single_file_decision, needs_regeneration, needsRegenerationSpec, h]
        | some r => simp [convert_single_file_decision, needs_regeneration, needsRegenerationSpec, h]
      | false =>
        cases h : store fn with
        | none => simp [convert_single_file_decision, needs_regeneration, needsRegenerationSpec, h]
        | some r => simp [convert_single_file_decision, needs_regeneration, needsRegenerationSpec, h]
  · intro store store₂ fn src fp
    exact ⟨rfl, rfl⟩

/-- Characterization of success of an Except bind by success of both parts. -/
theorem exists_ok_bind {γ α β : Type} (f : Except γ α) (g : α → Except γ β) :
    (∃ m, (f >>= g) = .ok m) ↔ ∃ r, f = .ok r ∧ ∃ m, g r = .ok m := by
  cases f <;> simp [Bind.bind, Except.bind]

/-- Dichotomy of the pipeline: either every stage succeeded and the result
is success with exactly the record of the written artifact saved, or the
run failed and nothing was saved. -/
theorem convert_md_to_pdf_dichotomy (env : PdfPipelineEnv) :
    (∃ pdfBytes, env.pdfProduce = some pdfBytes
      ∧ (∃ m, parse_margins env.pageMargins = .ok m)
      ∧ convert_md_to_pdf env =
          ⟨true, some ⟨env.filename, env.hash env.sourceBytes, env.hash pdfBytes,
            env.styleProfile, env.diagramWidth, env.diagramHeight,
            env.pageMargins, true⟩, none⟩)
    ∨ ((convert_md_to_pdf env).success = false ∧ (convert_md_to_pdf env).saved = none) := by
  unfold convert_md_to_pdf
  rcases h1 : replace_mermaid_pdf env.mermaidRender 0 env.blocks with e | c1
  · right
    simp [h1, pdfFailLogged]
  · rcases h2 : replace_plantuml_pdf env.plantumlRender 0 c1 with e | c2
    · right
      simp [h1, h2, pdfFailLogged]
    · by_cases hp : env.pandocExitCode = 0
      · rcases h3 : parse_margins env.pageMargins with e | m
        · right
          simp [h1, h2, hp, h3, pdfFailLogged]
        · rcases hb : env.pdfProduce with _ | pdfBytes
          · right
            simp [h1, h2, hp, h3, hb]
          · left
            refine ⟨pdfBytes, rfl, ⟨m, rfl⟩, ?_⟩
            simp [h1, h2, hp, h3, hb]
      · right
        simp [h1, h2, hp]

/-- When the mermaid pass raises, the document fails with the raised message
logged and no state write. -/
theorem convert_md_to_pdf_mermaid_error (env : PdfPipelineEnv) (e : List Char)
    (h : replace_mermaid_pdf env.mermaidRender 0 env.blocks = .error e) :
    convert_md_to_pdf env = pdfFailLogged env.filename e := by
  unfold convert_md_to_pdf
  simp [h]

/-- C2: a `DocumentRecord` is written only after the artifact is produced:
a pipeline run that fails at any stage yields no `save_document_state`
call, and a saved record implies overall success, with the artifact digest
computed from the bytes actually written to disk and the source digest from
the source bytes. -/
theorem record_saved_only_after_success :
    ∀ env : PdfPipelineEnv,
      ((convert_md_to_pdf env).success = false → (convert_md_to_pdf env).saved = none)
      ∧ (∀ r, (convert_md_to_pdf env).saved = some r →
          (convert_md_to_pdf env).success = true
          ∧ ∃ pdfBytes, env.pdfProduce = some pdfBytes
              ∧ r.artifactDigest = env.hash pdfBytes
              ∧ r.sourceDigest = env.hash env.sourceBytes) := by
  intro env
  rcases convert_md_to_pdf_dichotomy env with ⟨pdfBytes, hb, _, heq⟩ | ⟨hs, hn⟩
  · constructor
    · intro hfalse
      rw [heq] at hfalse
      simp at hfalse
    · intro r hr
      rw [heq] at hr
      simp only [Option.some.injEq] at hr
      rw [heq]
      refine ⟨rfl, pdfBytes, hb, ?_, ?_⟩
      · rw [← hr]
      · rw [← hr]
  · exact ⟨fun _ => hn, fun r hr => absurd (hn ▸ hr) (by simp)⟩

/-- Concrete witness environment for the success path of the pipeline. -/
def envC2 : PdfPipelineEnv :=
  ⟨strChars "doc.md", [1, 2], [Block.text (strChars "hello")],
   fun _ => (true, []), fun _ => (true, []), 0,
   strChars "1in", strChars "a4-print", 1680, 2240,
   some [7, 7], fun bs => bs.foldl (fun a b => 31 * a + b) 0⟩

/-- The record saved by the witness environment. -/
def rC2 : SavedRecord :=
  ⟨strChars "doc.md", 33, 224, strChars "a4-print", 1680, 2240, strChars "1in", true⟩

theorem record_saved_only_after_success_witness :
    (convert_md_to_pdf envC2).success = true
    ∧ ∃ pdfBytes, envC2.pdfProduce = some pdfBytes
        ∧ rC2.artifactDigest = envC2.hash pdfBytes
        ∧ rC2.sourceDigest = envC2.hash envC2.sourceBytes :=
  (record_saved_only_after_success envC2).2 rC2 (by decide)

/-- Pairs are their own constructors (helper fact for simp). -/
theorem exists_pair_eq {α β : Type} (x : α × β) : ∃ a b, x = (a, b) :=
  ⟨x.1, x.2, rfl⟩

/-- The denominator produced by `margValue` is positive. -/
theorem margValue_den_pos (neg : Bool) (ip fp : List Char) (en : Bool) (ed : Nat) :
    0 < (margValue neg ip fp en ed).den := by
  cases neg <;> cases en <;> simp [margValue]

/-- Unit conversion preserves denominator positivity. -/
theorem toInchesF_den_pos (v : Frac) (u : MarginUnit) (h : 0 < v.den) :
    0 < (toInchesF v u).den := by
  cases u <;> simp [toInchesF] <;> omega

/-- Values produced by the margin regex have a positive denominator. -/
theorem parseMarginChars_den_pos {cs : List Char} {v : Frac} {u : MarginUnit}
    (h : parseMarginChars cs = some (v, u)) : 0 < v.den := by
  unfold parseMarginChars at h
  dsimp only at h
  repeat' split at h
  all_goals
    first
      | (simp only [Option.some.injEq, Prod.mk.injEq] at h
         exact h.1 ▸ margValue_den_pos _ _ _ _ _)
      | exact absurd h (by simp)

/-- The function `isNeg` decides negativity of the fraction's value. -/
theorem isNeg_toRat (f : Frac) (h : 0 < f.den) : f.isNeg = true ↔ f.toRat < 0 := by
  have hd : (0 : ℚ) < (f.den : ℚ) := by exact_mod_cast h
  simp only [Frac.isNeg, decide_eq_true_eq, Frac.toRat]
  rw [div_lt_iff₀ hd, zero_mul]
  exact Int.cast_lt_zero.symm

/-- The function `gtThree` decides whether the fraction's value exceeds 3. -/
theorem gtThree_toRat (f : Frac) (h : 0 < f.den) : f.gtThree = true ↔ 3 < f.toRat := by
  have hd : (0 : ℚ) < (f.den : ℚ) := by exact_mod_cast h
  simp only [Frac.gtThree, decide_eq_true_eq, Frac.toRat]
  rw [lt_div_iff₀ hd]
  constructor <;> intro hx <;> exact_mod_cast hx

/-- C9: margin validation accepts exactly the numbers with unit in
cm/in/mm/pt/px (unit defaulting to inches) whose value converted to inches
lies in [0, 3]; the margin specification must contain exactly 1, 2 or 4
whitespace-separated values; and a specification that fails to parse fails
the document's conversion with no state write. -/
theorem margin_parsing_characterized :
    (∀ s : List Char, (∃ r, validate_margin s = .ok r) ↔
      ∃ v u, parseMarginChars s = some (v, u)
        ∧ 0 ≤ (toInchesF v u).toRat ∧ (toInchesF v u).toRat ≤ 3)
    ∧ (∀ cs : List Char, (∃ m, parse_margins cs = .ok m) ↔
      (((splitWS cs).length = 1 ∨ (splitWS cs).length = 2 ∨ (splitWS cs).length = 4)
        ∧ ∀ p ∈ splitWS cs, ∃ r, validate_margin p = .ok r))
    ∧ (∃ v, parseMarginChars (strChars "1.5") = some (v, MarginUnit.inch)
        ∧ v.toRat = 3 / 2)
    ∧ (∀ env : PdfPipelineEnv, (∀ m, parse_margins env.pageMargins ≠ .ok m) →
        (convert_md_to_pdf env).success = false ∧ (convert_md_to_pdf env).saved = none) := by
  refine ⟨?_, ?_, ⟨⟨15, 10⟩, by decide, by norm_num [Frac.toRat]⟩, ?_⟩
  · intro s
    constructor
    · rintro ⟨r, hr⟩
      rcases hps : parseMarginChars s with _ | ⟨v, u⟩
      · simp [validate_margin, hps] at hr
      · have hdi : 0 < (toInchesF v u).den :=
          toInchesF_den_pos v u (parseMarginChars_den_pos hps)
        simp only [validate_margin, hps] at hr
        by_cases hn : (toInchesF v u).isNeg = true
        · simp [hn] at hr
        · by_cases hg : (toInchesF v u).gtThree = true
          · simp [hn, hg] at hr
          · refine ⟨v, u, rfl, ?_, ?_⟩
            · exact le_of_not_lt fun hlt => hn ((isNeg_toRat _ hdi).mpr hlt)
            · exact le_of_not_lt fun hlt => hg ((gtThree_toRat _ hdi).mpr hlt)
    · rintro ⟨v, u, hps, h0, h3⟩
      have hdi : 0 < (toInchesF v u).den :=
        toInchesF_den_pos v u (parseMarginChars_den_pos hps)
      refine ⟨(v, u), ?_⟩
      simp only [validate_margin, hps]
      rw [if_neg fun hn => absurd ((isNeg_toRat _ hdi).mp hn) (not_lt.mpr h0),
        if_neg fun hg => absurd ((gtThree_toRat _ hdi).mp hg) (not_lt.mpr h3)]
  · intro cs
    rcases hp : splitWS cs with _ | ⟨a, _ | ⟨b, _ | ⟨c, _ | ⟨d, _ | t⟩⟩⟩⟩
    · simp [parse_margins, hp]
    · cases hva : validate_margin a <;>
        simp [parse_margins, hp, hva, Bind.bind, Except.bind, Pure.pure, Except.pure,
          exists_pair_eq]
    · cases hva : validate_margin a <;> cases hvb : validate_margin b <;>
        simp [parse_margins, hp, hva, hvb, Bind.bind, Except.bind, Pure.pure, Except.pure,
          exists_pair_eq]
    · simp [parse_margins, hp]
    · cases hva : validate_margin a <;> cases hvb : validate_margin b <;>
        cases hvc : validate_margin c <;> cases hvd : validate_margin d <;>
        simp [parse_margins, hp, hva, hvb, hvc, hvd, Bind.bind, Except.bind,
          Pure.pure, Except.pure, exists_pair_eq]
    · constructor
      · rintro ⟨m, hm⟩
        simp [parse_margins, hp] at hm
      · rintro ⟨hlen, _⟩
        rcases hlen with h | h | h <;> simp only [List.length_cons] at h <;> omega
  · intro env h
    rcases convert_md_to_pdf_dichotomy env with ⟨_, _, ⟨m, hm⟩, _⟩ | hfail
    · exact absurd hm (h m)
    · exact hfail

theorem margin_parsing_characterized_witness :
    ∃ v u, parseMarginChars (strChars "2.5cm") = some (v, u)
      ∧ 0 ≤ (toInchesF v u).toRat ∧ (toInchesF v u).toRat ≤ 3 :=
  (margin_parsing_characterized.1 (strChars "2.5cm")).mp ⟨(⟨25, 10⟩, MarginUnit.cm), by decide⟩

end MDPDF

namespace MDPDF

/-! ## PlantUML render adapter: bounded retry with backoff

Embeds `MarkdownToPDFConverter._render_plantuml_diagram`
(converter.py:790-844). The external service is an environment function
giving, per attempt number, either returned image bytes or a raised
exception (type name and detail text). The loop runs
`for attempt in range(1, max_retries + 1)`; a transient-classified error
with attempts remaining sleeps `2 ** attempt` seconds and constructs a
fresh client before retrying; anything else returns immediately. The
outcome records the sleeps performed and the client handle used on each
attempt (id 0 is the cached `self._plantuml_client`; retries construct
fresh clients with new ids). -/

inductive AttemptResult where
  | ok (bytes : List Nat)
  | exn (ty : List Char) (details : List Char)

/-- The fixed transient-indicator set (converter.py:829-830). -/
def transient_keywords : List (List Char) :=
  [strChars "SSL", strChars "SSLError", strChars "ConnectionError",
   strChars "ConnectionReset", strChars "TimeoutError", strChars "Timeout",
   strChars "BrokenPipe", strChars "RemoteDisconnected"]

/-- The message built from a raised exception (converter.py:826). -/
def plantumlErrorMsg (ty details : List Char) : List Char :=
  strChars "Failed to render PlantUML diagram: " ++ ty ++ strChars ": " ++ details

/-- Case-insensitive substring classification (converter.py:831). -/
def is_transient (msg : List Char) : Bool :=
  transient_keywords.any fun kw => containsSub (lowerChars msg) (lowerChars kw)

structure RenderOutcome where
  success : Bool
  errorMsg : List Char
  attemptsUsed : Nat
  sleeps : List Nat
  clients : List Nat
deriving DecidableEq, Repr

/-- The retry loop body; `fuel` counts the remaining iterations of the
`range(1, max_retries + 1)` loop. -/
def renderPlantumlGo (tr : Nat → AttemptResult) (maxRetries : Nat) :
    Nat → Nat → Nat → List Nat → List Nat → List Char → RenderOutcome
  | 0, attempt, _, sleeps, clients, lastErr =>
    ⟨false, lastErr, attempt - 1, sleeps, clients⟩
  | fuel + 1, attempt, client, sleeps, clients, _lastErr =>
    match tr attempt with
    | .ok bytes =>
      if 0 < bytes.length then
        ⟨true, [], attempt, sleeps, clients ++ [client]⟩
      else
        ⟨false, strChars "PlantUML diagram file was not created or is empty",
         attempt, sleeps, clients ++ [client]⟩
    | .exn ty details =>
      if is_transient (plantumlErrorMsg ty details) && decide (attempt < maxRetries) then
        renderPlantumlGo tr maxRetries fuel (attempt + 1) attempt
          (sleeps ++ [2 ^ attempt]) (clients ++ [client]) (plantumlErrorMsg ty details)
      else
        ⟨false, plantumlErrorMsg ty details, attempt, sleeps, clients ++ [client]⟩

/-- The function `_render_plantuml_diagram` with its default retry budget of 3. -/
def render_plantuml_diagram (tr : Nat → AttemptResult) (maxRetries : Nat) : RenderOutcome :=
  renderPlantumlGo tr maxRetries maxRetries 1 0 [] [] []

/-- C4: a non-transient error returns failure after exactly 1 attempt with
the last error message preserved and no sleep; a transient error with
attempts remaining sleeps `2 ^ attempt` seconds and retries with a freshly
constructed client; two transient failures followed by a success give
overall success on the 3rd attempt with backoff sleeps `[2, 4]` and a fresh
client per retry. -/
theorem plantuml_retry_behavior :
    (∀ (tr : Nat → AttemptResult) (ty details : List Char),
      tr 1 = .exn ty details →
      is_transient (plantumlErrorMsg ty details) = false →
      render_plantuml_diagram tr 3 =
        ⟨false, plantumlErrorMsg ty details, 1, [], [0]⟩)
    ∧ (∀ (tr : Nat → AttemptResult) (ty1 d1 ty2 d2 : List Char) (bytes : List Nat),
      tr 1 = .exn ty1 d1 → tr 2 = .exn ty2 d2 → tr 3 = .ok bytes →
      is_transient (plantumlErrorMsg ty1 d1) = true →
      is_transient (plantumlErrorMsg ty2 d2) = true →
      0 < bytes.length →
      render_plantuml_diagram tr 3 = ⟨true, [], 3, [2, 4], [0, 1, 2]⟩)
    ∧ (∀ (tr : Nat → AttemptResult) (maxRetries fuel attempt client : Nat)
        (sleeps clients : List Nat) (lastErr ty details : List Char),
      tr attempt = .exn ty details →
      is_transient (plantumlErrorMsg ty details) = true →
      attempt < maxRetries →
      renderPlantumlGo tr maxRetries (fuel + 1) attempt client sleeps clients lastErr =
        renderPlantumlGo tr maxRetries fuel (attempt + 1) attempt
          (sleeps ++ [2 ^ attempt]) (clients ++ [client]) (plantumlErrorMsg ty details)) := by
  refine ⟨?_, ?_, ?_⟩
  · intro tr ty details h1 ht
    unfold render_plantuml_diagram
    rw [renderPlantumlGo, h1]
    simp [ht]
  · intro tr ty1 d1 ty2 d2 bytes h1 h2 h3 ht1 ht2 hb
    unfold render_plantuml_diagram
    rw [renderPlantumlGo, h1]
    simp only [ht1, Bool.true_and, decide_eq_true_eq]
    rw [if_pos (by norm_num)]
    rw [renderPlantumlGo, h2]
    simp only [ht2, Bool.true_and, decide_eq_true_eq]
    rw [if_pos (by norm_num)]
    rw [renderPlantumlGo, h3]
    simp [hb]
  · intro tr maxRetries fuel attempt client sleeps clients lastErr ty details h ht hlt
    rw [renderPlantumlGo, h]
    simp [ht, hlt]

/-- Concrete trace: two transient failures, then a successful render. -/
def trC4 : Nat → AttemptResult
  | 1 => .exn (strChars "ConnectionError") (strChars "reset by peer")
  | 2 => .exn (strChars "TimeoutError") (strChars "timed out")
  | _ => .ok [1, 2, 3]

theorem plantuml_retry_behavior_witness :
    render_plantuml_diagram trC4 3 = ⟨true, [], 3, [2, 4], [0, 1, 2]⟩ :=
  plantuml_retry_behavior.2.1 trC4 _ _ _ _ [1, 2, 3] rfl rfl rfl
    (by decide) (by decide) (by decide)

end MDPDF

namespace MDPDF

/-! ## Mermaid render adapter: two-phase wait and stabilization polling

Embeds `MarkdownToPDFConverter._render_mermaid_diagram`
(converter.py:666-783). The browser page is an environment: whether the
SVG is present (non-empty) at a given elapsed time, sampled every 100 ms;
the bounding-box samples of the `.mermaid` element taken every 50 ms during
the stability phase; and the element/bounding-box availability at
screenshot time. Bounding-box floats are modelled as `Frac`. -/

structure Box where
  w : Frac
  ht : Frac
deriving DecidableEq, Repr

/-- Executable test `|a - b| < 1` on fractions with positive denominators
(the per-dimension 1-pixel tolerance, converter.py:705-706). -/
def within1 (a b : Frac) : Bool :=
  (a.num * (b.den : Int) - b.num * (a.den : Int)).natAbs < a.den * b.den

/-- Both width and height deltas below the 1-pixel tolerance
(converter.py:705-708). -/
def boxStable (cur lst : Box) : Bool :=
  within1 cur.w lst.w && within1 cur.ht lst.ht

/-- The function `within1` decides the 1-pixel tolerance on values. -/
theorem within1_toRat (a b : Frac) (ha : 0 < a.den) (hb : 0 < b.den) :
    within1 a b = true ↔ |a.toRat - b.toRat| < 1 := by
  have ha0 : (0 : ℚ) < (a.den : ℚ) := by exact_mod_cast ha
  have hb0 : (0 : ℚ) < (b.den : ℚ) := by exact_mod_cast hb
  simp only [within1, decide_eq_true_eq, Frac.toRat]
  rw [div_sub_div _ _ (ne_of_gt ha0) (ne_of_gt hb0), abs_div,
    abs_of_pos (mul_pos ha0 hb0), div_lt_one (mul_pos ha0 hb0)]
  have e1 : ((a.num : ℚ) * (b.den : ℚ) - (a.den : ℚ) * (b.num : ℚ))
      = ((a.num * (b.den : Int) - b.num * (a.den : Int) : Int) : ℚ) := by
    push_cast
    ring
  have e2 : ((a.den : ℚ)) * ((b.den : ℚ)) = ((a.den * b.den : Nat) : ℚ) := by
    push_cast
    ring
  rw [e1, e2, ← Int.cast_abs, Int.abs_eq_natAbs, Int.cast_natCast]
  exact (Nat.cast_lt).symm

/-- Phase 1 (converter.py:675-687): poll every 100 ms, within a 5000 ms
budget, until the rendered SVG appears non-empty; returns (found?, elapsed). -/
def svgWait (svgAt : Nat → Bool) : Nat → Nat → Bool × Nat
  | 0, elapsed => (false, elapsed)
  | fuel + 1, elapsed =>
    if elapsed < 5000 then
      if svgAt elapsed then (true, elapsed)
      else svgWait svgAt fuel (elapsed + 100)
    else (false, elapsed)

/-- Counter update for one stability sample (converter.py:703-711):
increment on an in-tolerance pair, reset to 0 on an out-of-tolerance pair,
leave unchanged when the current or previous box is missing. -/
def stableUpdate (cur lst : Option Box) (stable : Nat) : Nat :=
  match cur, lst with
  | some c, some p => if boxStable c p then stable + 1 else 0
  | _, _ => stable

/-- Phase 2 (converter.py:695-714): sample the bounding box every 50 ms
while `elapsed < maxWait` and fewer than `checks` consecutive stable
samples; the previous box always becomes the sampled one. Returns the
final (counter, elapsed). -/
def stabilityGo (sample : Nat → Option Box) (maxWait checks : Nat) :
    Nat → Nat → Nat → Option Box → Nat → Nat × Nat
  | 0, elapsed, stable, _, _ => (stable, elapsed)
  | fuel + 1, elapsed, stable, lst, k =>
    if elapsed < maxWait ∧ stable < checks then
      stabilityGo sample maxWait checks fuel (elapsed + 50)
        (stableUpdate (sample k) lst stable) (sample k) (k + 1)
    else (stable, elapsed)

structure MermaidEnv where
  svgAt : Nat → Bool
  elementFound : Bool
  sample : Nat → Option Box
  finalElementFound : Bool
  finalBoxFound : Bool

inductive CaptureKind where
  | element
  | fullPage
deriving DecidableEq, Repr

structure MermaidOutcome where
  success : Bool
  errorMsg : List Char
  svgFound : Bool
  stableCount : Nat
  stabilityWarning : Bool
  capture : CaptureKind
deriving Repr

/-- The function `_render_mermaid_diagram` (converter.py:666-783): wait for the SVG, run
stabilization polling with `max_wait_time = 5000`, `stability_checks = 3`,
log a warning if the dimensions never stabilized, then scale and capture a
screenshot (element capture, falling back to a full-page capture) and
return `(True, "")` — stabilization timeout is not a failure. -/
def render_mermaid_diagram (env : MermaidEnv) : MermaidOutcome :=
  let sw := svgWait env.svgAt 51 0
  let st :=
    if sw.1 && env.elementFound then stabilityGo env.sample 5000 3 101 sw.2 0 none 0
    else (0, sw.2)
  ⟨true, [], sw.1, st.1,
   sw.1 && env.elementFound && decide (st.1 < 3),
   if env.finalElementFound then
     (if env.finalBoxFound then CaptureKind.element else CaptureKind.fullPage)
   else CaptureKind.fullPage⟩

/-- C8: the stabilization loop counts consecutive in-tolerance samples,
resets the counter to 0 on any out-of-tolerance sample, and stops on the
3rd consecutive stable sample or at the 5000 ms budget; the tolerance check
is exactly "width and height deltas both below 1 pixel"; and a render whose
dimensions never stabilize still returns success with an output capture,
with only a warning flagged. -/
theorem mermaid_stabilization_behavior :
    (∀ (s : Nat → Option Box) (mw c fuel e st k : Nat) (lst : Option Box),
      e < mw → st < c →
      stabilityGo s mw c (fuel + 1) e st lst k =
        stabilityGo s mw c fuel (e + 50) (stableUpdate (s k) lst st) (s k) (k + 1))
    ∧ (∀ (s : Nat → Option Box) (mw c fuel e st k : Nat) (lst : Option Box),
      ¬(e < mw ∧ st < c) →
      stabilityGo s mw c (fuel + 1) e st lst k = (st, e))
    ∧ (∀ (cur prev : Box) (st : Nat),
        stableUpdate (some cur) (some prev) st =
          if boxStable cur prev then st + 1 else 0)
    ∧ (∀ cur lst : Box,
        0 < cur.w.den → 0 < cur.ht.den → 0 < lst.w.den → 0 < lst.ht.den →
        (boxStable cur lst = true ↔
          |cur.w.toRat - lst.w.toRat| < 1 ∧ |cur.ht.toRat - lst.ht.toRat| < 1))
    ∧ (∀ env : MermaidEnv,
        (render_mermaid_diagram env).success = true
        ∧ (render_mermaid_diagram env).errorMsg = []
        ∧ ((render_mermaid_diagram env).stableCount < 3 →
            (render_mermaid_diagram env).stabilityWarning =
              ((render_mermaid_diagram env).svgFound && env.elementFound))) := by
  refine ⟨?_, ?_, ?_, ?_, ?_⟩
  · intro s mw c fuel e st k lst he hst
    rw [stabilityGo, if_pos ⟨he, hst⟩]
  · intro s mw c fuel e st k lst h
    rw [stabilityGo, if_neg h]
  · intro cur prev st
    rfl
  · intro cur lst h1 h2 h3 h4
    simp only [boxStable, Bool.and_eq_true, within1_toRat _ _ h1 h3, within1_toRat _ _ h2 h4]
  · intro env
    refine ⟨rfl, rfl, ?_⟩
    intro h
    simp only [render_mermaid_diagram] at h ⊢
    rw [decide_eq_true h, Bool.and_true]

/-- A page whose element oscillates between two widths 90 px apart: the
dimensions never stabilize inside the budget. -/
def envC8 : MermaidEnv :=
  ⟨fun _ => true, true,
   fun k => some (if k % 2 = 0 then ⟨⟨10, 1⟩, ⟨10, 1⟩⟩ else ⟨⟨100, 1⟩, ⟨10, 1⟩⟩),
   true, true⟩

theorem mermaid_stabilization_behavior_witness :
    (render_mermaid_diagram envC8).success = true
    ∧ (render_mermaid_diagram envC8).stabilityWarning =
        ((render_mermaid_diagram envC8).svgFound && envC8.elementFound) :=
  ⟨(mermaid_stabilization_behavior.2.2.2.2 envC8).1,
   (mermaid_stabilization_behavior.2.2.2.2 envC8).2.2 (by decide)⟩

end MDPDF

namespace MDPDF

/-! ## Per-document outcome and batch orchestration

`_convert_single_file` (converter.py:1604-1641) produces one outcome in
converted/skipped/failed per document. `_convert_all_sequential`
(converter.py:1845-1867) folds the outcomes in list order;
`_convert_all_parallel` (converter.py:1791-1843) collects the same
outcomes in completion order (a permutation of the submitted list) via
`as_completed`, each worker delegating to the same `_convert_single_file`
on a converter rebuilt from the same constructor kwargs. -/

inductive Outcome where
  | converted
  | skipped
  | failed
deriving DecidableEq, Repr

/-- The function `_convert_single_file` as an outcome function: the skip-vs-regenerate
decision, then the pipeline, `converted` on pipeline success, `failed`
otherwise. -/
structure SingleFileEnv where
  forceRegenerate : Bool
  outputPdfExists : Bool
  store : List Char → Option DocumentRecord
  filename : List Char
  currentSourceDigest : Nat
  currentFingerprint : Nat
  pipeline : PdfPipelineEnv

def convert_single_file (env : SingleFileEnv) : Outcome :=
  if convert_single_file_decision env.forceRegenerate env.outputPdfExists env.store
      env.filename env.currentSourceDigest env.currentFingerprint then
    if (convert_md_to_pdf env.pipeline).success then .converted else .failed
  else .skipped

structure Counts where
  converted : Nat
  skipped : Nat
  failed : Nat
deriving DecidableEq, Repr

/-- One loop iteration of the count bookkeeping
(converter.py:1821-1829, 1854-1859). -/
def bump (c : Counts) : Outcome → Counts
  | .converted => ⟨c.converted + 1, c.skipped, c.failed⟩
  | .skipped => ⟨c.converted, c.skipped + 1, c.failed⟩
  | .failed => ⟨c.converted, c.skipped, c.failed + 1⟩

/-- The function `_convert_all_sequential` (converter.py:1845-1867): fold the
per-document outcomes in list order. -/
def convert_all_sequential {α : Type} (outcomeOf : α → Outcome) (files : List α) : Counts :=
  files.foldl (fun c f => bump c (outcomeOf f)) ⟨0, 0, 0⟩

/-- The function `_convert_all_parallel` (converter.py:1791-1843): fold the same
per-document outcomes in completion order. -/
def convert_all_parallel {α : Type} (outcomeOf : α → Outcome)
    (completionOrder : List α) : Counts :=
  completionOrder.foldl (fun c f => bump c (outcomeOf f)) ⟨0, 0, 0⟩

/-- Counting lemma: the fold counts each outcome kind. -/
theorem foldl_bump_count {α : Type} (outcomeOf : α → Outcome) (files : List α) (c : Counts) :
    files.foldl (fun c f => bump c (outcomeOf f)) c =
      ⟨c.converted + (files.map outcomeOf).count .converted,
       c.skipped + (files.map outcomeOf).count .skipped,
       c.failed + (files.map outcomeOf).count .failed⟩ := by
  induction files generalizing c with
  | nil => simp
  | cons f t ih =>
    rw [List.foldl_cons, ih]
    cases h : outcomeOf f <;>
      simp [bump, h, List.count_cons, Counts.mk.injEq] <;> omega

/-- Every document lands in exactly one of the three outcome buckets. -/
theorem count_outcomes_total (l : List Outcome) :
    l.count .converted + l.count .skipped + l.count .failed = l.length := by
  induction l with
  | nil => rfl
  | cons o t ih =>
    cases o <;> simp [List.count_cons, ih.symm] <;> omega

/-- Orchestration folds of the same outcome function agree up to any
permutation of the processing order. -/
theorem orchestrators_perm_equiv {α : Type} (outcomeOf : α → Outcome)
    (files completionOrder : List α) (hperm : completionOrder.Perm files) :
    convert_all_parallel outcomeOf completionOrder = convert_all_sequential outcomeOf files
    ∧ (completionOrder.map fun f => (f, outcomeOf f)).Perm
        (files.map fun f => (f, outcomeOf f)) := by
  constructor
  · unfold convert_all_parallel convert_all_sequential
    rw [foldl_bump_count, foldl_bump_count]
    have hm := hperm.map outcomeOf
    rw [hm.count_eq, hm.count_eq, hm.count_eq]
  · exact hperm.map _

/-- C5: with each document delegated to the same single-file conversion
function (`convert_single_file`, the function both orchestrators invoke),
parallel orchestration over any completion order that is a permutation of
the batch produces the same aggregate counts as sequential orchestration
over the batch, and the same multiset of per-document (document, outcome)
assignments. -/
theorem sequential_parallel_equivalence :
    ∀ {α : Type} (envOf : α → SingleFileEnv) (files completionOrder : List α),
      completionOrder.Perm files →
      convert_all_parallel (fun f => convert_single_file (envOf f)) completionOrder
        = convert_all_sequential (fun f => convert_single_file (envOf f)) files
      ∧ (completionOrder.map fun f => (f, convert_single_file (envOf f))).Perm
          (files.map fun f => (f, convert_single_file (envOf f))) := by
  intro α envOf files completionOrder hperm
  exact orchestrators_perm_equiv (fun f => convert_single_file (envOf f))
    files completionOrder hperm

/-- Pipeline environment whose run succeeds (for the equivalence witness). -/
def pipeOkC5 : PdfPipelineEnv :=
  ⟨strChars "b.md", [1], [], fun _ => (true, []), fun _ => (true, []), 0,
   strChars "1in", strChars "a4-print", 1680, 2240, some [9], fun bs => bs.length⟩

/-- Pipeline environment whose final production step fails. -/
def pipeFailC5 : PdfPipelineEnv :=
  ⟨strChars "c.md", [1], [], fun _ => (true, []), fun _ => (true, []), 0,
   strChars "1in", strChars "a4-print", 1680, 2240, none, fun bs => bs.length⟩

/-- A batch with one up-to-date, one fresh, and one failing document. -/
def envOfC5 : Nat → SingleFileEnv
  | 1 => ⟨false, true, fun _ => some ⟨strChars "a.md", 5, 9, 7⟩, strChars "a.md", 5, 7, pipeOkC5⟩
  | 2 => ⟨true, true, fun _ => none, strChars "b.md", 0, 0, pipeOkC5⟩
  | _ => ⟨true, true, fun _ => none, strChars "c.md", 0, 0, pipeFailC5⟩

theorem sequential_parallel_equivalence_witness :
    convert_all_parallel (fun f => convert_single_file (envOfC5 f)) [3, 1, 2]
      = convert_all_sequential (fun f => convert_single_file (envOfC5 f)) [1, 2, 3]
    ∧ (List.map (fun f => (f, convert_single_file (envOfC5 f))) [3, 1, 2]).Perm
        (List.map (fun f => (f, convert_single_file (envOfC5 f))) [1, 2, 3]) :=
  sequential_parallel_equivalence envOfC5 [1, 2, 3] [3, 1, 2] (by decide)

/-! ## Batch entry point and README exclusion

`convert_all` (converter.py:1750-1771) globs `*.md`, returns early on an
empty glob, filters out `README.md`, and hands the filtered list to the
sequential or parallel orchestrator. The standalone script
(convert_md_to_pdf.py:870-894) instead skips `README.md` inside its loop
with `continue`, so it is likewise never converted and never counted. -/

/-- The function `convert_all` (converter.py:1750-1771) as the per-document outcome
assignment it produces. -/
def convert_all (outcomeOf : List Char → Outcome) (names : List (List Char)) :
    List (List Char × Outcome) :=
  if names.isEmpty then []
  else
    (names.filter fun f => f ≠ strChars "README.md").map fun f => (f, outcomeOf f)

/-- The standalone script loop (convert_md_to_pdf.py:880-887): returns the
success count and the list of files actually processed. -/
def convert_all_script (convOk : List Char → Bool) : List (List Char) → Nat × List (List Char)
  | [] => (0, [])
  | f :: rest =>
    let r := convert_all_script convOk rest
    if f = strChars "README.md" then r
    else (if convOk f then r.1 + 1 else r.1, f :: r.2)

/-- C10: `README.md` is excluded from the document set before any outcome
assignment: it never appears in the outcome list of `convert_all`, whose
result is exactly the filtered list mapped through the single-file
conversion; and in the standalone script it is never processed and never
contributes to the success count. -/
theorem readme_excluded :
    (∀ (outcomeOf : List Char → Outcome) (names : List (List Char)),
      (∀ o, (strChars "README.md", o) ∉ convert_all outcomeOf names)
      ∧ convert_all outcomeOf names =
          if names.isEmpty then []
          else (names.filter fun f => f ≠ strChars "README.md").map fun f => (f, outcomeOf f))
    ∧ (∀ (convOk : List Char → Bool) (names : List (List Char)),
      strChars "README.md" ∉ (convert_all_script convOk names).2
      ∧ (convert_all_script convOk names).1 =
          ((names.filter fun f => f ≠ strChars "README.md").filter convOk).length) := by
  constructor
  · intro outcomeOf names
    constructor
    · intro o hmem
      unfold convert_all at hmem
      split at hmem
      · simp at hmem
      · rw [List.mem_map] at hmem
        obtain ⟨f, hf, heq⟩ := hmem
        rw [List.mem_filter] at hf
        have : f = strChars "README.md" := congrArg Prod.fst heq
        simp [this] at hf
    · rfl
  · intro convOk names
    induction names with
    | nil => exact ⟨by simp [convert_all_script], rfl⟩
    | cons f rest ih =>
      by_cases hf : f = strChars "README.md"
      · constructor
        · simpa [convert_all_script, hf] using ih.1
        · simp only [convert_all_script, hf, if_pos, List.filter_cons]
          rw [if_neg (by simp [hf])]
          exact ih.2
      · constructor
        · intro hmem
          rw [convert_all_script, if_neg hf] at hmem
          rcases List.mem_cons.mp hmem with he | hm
          · exact hf he.symm
          · exact ih.1 hm
        · by_cases hc : convOk f = true
          · simp [convert_all_script, hf, hc, List.filter_cons, ih.2]
          · simp only [Bool.not_eq_true] at hc
            simp [convert_all_script, hf, hc, List.filter_cons, ih.2]

/-- Outcome oracle for the README-exclusion witness. -/
def outcomeW2 : List Char → Outcome :=
  fun _ => Outcome.converted

theorem readme_excluded_witness :
    (∀ o, (strChars "README.md", o) ∉
        convert_all outcomeW2 [strChars "a.md", strChars "README.md", strChars "b.md"])
    ∧ convert_all outcomeW2 [strChars "a.md", strChars "README.md", strChars "b.md"] =
        if ([strChars "a.md", strChars "README.md", strChars "b.md"] :
            List (List Char)).isEmpty then []
        else ([strChars "a.md", strChars "README.md", strChars "b.md"].filter
            fun f => f ≠ strChars "README.md").map fun f => (f, outcomeW2 f) :=
  (readme_excluded.1 outcomeW2 [strChars "a.md", strChars "README.md", strChars "b.md"])

end MDPDF

namespace MDPDF

/-! ## Diagram failure isolation: PDF pipeline vs ebook pipeline

In the PDF converter a failed diagram render raises, failing the document
(converter.py:908-909, 1639-1641). In the ebook converter the failed
diagram block is replaced by an error placeholder and the document
continues (ebook_converter.py:783-790). -/

def replace_plantuml_ebook (render : List Char → Bool × List Char) (i : Nat) :
    List Block → List Block
  | [] => []
  | .plantuml code :: rest =>
    match render code with
    | (true, _) => .image i :: replace_plantuml_ebook render (i + 1) rest
    | (false, msg) =>
      .errorPlaceholder (strChars "PlantUML") msg :: replace_plantuml_ebook render (i + 1) rest
  | .text s :: rest => .text s :: replace_plantuml_ebook render i rest
  | .mermaid code :: rest => .mermaid code :: replace_plantuml_ebook render i rest
  | .image idx :: rest => .image idx :: replace_plantuml_ebook render i rest
  | .errorPlaceholder t m :: rest =>
    .errorPlaceholder t m :: replace_plantuml_ebook render i rest

structure EbookPipelineEnv where
  filename : List Char
  blocks : List Block
  mermaidRender : List Char → Bool × List Char
  plantumlRender : List Char → Bool × List Char
  produceOk : Bool

/-- The function `MarkdownToEbookConverter._convert_md_to_format` restricted to its
diagram stages: the mermaid and plantuml passes never abort the document;
the outcome is that of the remaining format-production stages and the
produced artifact contains the substituted content. -/
def convert_md_to_format (env : EbookPipelineEnv) : Bool × List Block :=
  (env.produceOk,
   replace_plantuml_ebook env.plantumlRender 0
     (replace_mermaid_ebook env.mermaidRender 0 env.blocks))

/-- C3 (amended, PDF side): if any mermaid block of a document fails to
render, the mermaid pass raises with the failing diagram's error message
embedded verbatim; the raised error fails the document with no state write
and the message logged; and a sequential batch still assigns every
document exactly one of the three outcomes (the counts total the batch
size). -/
theorem mermaid_hard_failure_isolation :
    (∀ (render : List Char → Bool × List Char) (blocks : List Block) (i : Nat),
      (∃ c ∈ mermaidCodes blocks, (render c).1 = false) →
      ∃ j c msg, c ∈ mermaidCodes blocks ∧ render c = (false, msg)
        ∧ replace_mermaid_pdf render i blocks =
            .error (strChars "Mermaid diagram " ++ natChars j
              ++ strChars " failed to render: " ++ msg))
    ∧ (∀ (env : PdfPipelineEnv) (e : List Char),
        replace_mermaid_pdf env.mermaidRender 0 env.blocks = .error e →
        convert_md_to_pdf env =
          ⟨false, none,
           some (strChars "Error converting " ++ env.filename ++ strChars ": " ++ e)⟩)
    ∧ (∀ {α : Type} (outcomeOf : α → Outcome) (files : List α),
        (convert_all_sequential outcomeOf files).converted
          + (convert_all_sequential outcomeOf files).skipped
          + (convert_all_sequential outcomeOf files).failed = files.length) := by
  refine ⟨?_, ?_, ?_⟩
  · intro render blocks
    induction blocks with
    | nil =>
      rintro i ⟨c, hc, _⟩
      simp [mermaidCodes] at hc
    | cons b rest ih =>
      intro i hfail
      cases b with
      | mermaid code =>
        rcases hr : render code with ⟨ok, msg⟩
        cases ok with
        | false =>
          exact ⟨i, code, msg, by simp [mermaidCodes], hr,
            by rw [replace_mermaid_pdf, hr]⟩
        | true =>
          obtain ⟨c, hc, hcf⟩ := hfail
          have hcrest : c ∈ mermaidCodes rest := by
            rcases (by simpa [mermaidCodes] using hc : c = code ∨ c ∈ mermaidCodes rest)
              with rfl | h
            · rw [hr] at hcf
              simp at hcf
            · exact h
          obtain ⟨j, c2, msg2, hmem, hrend, herr⟩ := ih (i + 1) ⟨c, hcrest, hcf⟩
          refine ⟨j, c2, msg2, by simp [mermaidCodes, hmem], hrend, ?_⟩
          rw [replace_mermaid_pdf, hr, herr]
          rfl
      | text s =>
        obtain ⟨j, c2, msg2, hmem, hrend, herr⟩ :=
          ih i (by simpa [mermaidCodes] using hfail)
        refine ⟨j, c2, msg2, by simpa [mermaidCodes] using hmem, hrend, ?_⟩
        rw [replace_mermaid_pdf, herr]
        rfl
      | plantuml code =>
        obtain ⟨j, c2, msg2, hmem, hrend, herr⟩ :=
          ih i (by simpa [mermaidCodes] using hfail)
        refine ⟨j, c2, msg2, by simpa [mermaidCodes] using hmem, hrend, ?_⟩
        rw [replace_mermaid_pdf, herr]
        rfl
      | image idx =>
        obtain ⟨j, c2, msg2, hmem, hrend, herr⟩ :=
          ih i (by simpa [mermaidCodes] using hfail)
        refine ⟨j, c2, msg2, by simpa [mermaidCodes] using hmem, hrend, ?_⟩
        rw [replace_mermaid_pdf, herr]
        rfl
      | errorPlaceholder t m =>
        obtain ⟨j, c2, msg2, hmem, hrend, herr⟩ :=
          ih i (by simpa [mermaidCodes] using hfail)
        refine ⟨j, c2, msg2, by simpa [mermaidCodes] using hmem, hrend, ?_⟩
        rw [replace_mermaid_pdf, herr]
        rfl
  · intro env e h
    exact convert_md_to_pdf_mermaid_error env e h
  · intro α outcomeOf files
    unfold convert_all_sequential
    rw [foldl_bump_count]
    simp only [Nat.zero_add]
    rw [count_outcomes_total]
    exact List.length_map _ _

/-- A hard (dialect) mermaid failure, as the render adapter reports it. -/
def renderFailC3 : List Char → Bool × List Char :=
  fun _ => (false, strChars "Parse error on line 1")

/-- Ebook document whose only diagram fails hard while every later stage
succeeds. -/
def envC3 : EbookPipelineEnv :=
  ⟨strChars "doc.md", [Block.mermaid (strChars "graph TD")], renderFailC3,
   fun _ => (true, []), true⟩

/-- C3 counterexample: in the ebook pipeline a document whose embedded
diagram fails with a hard error is not marked failed — the conversion
succeeds and the produced artifact contains the substituted error
placeholder for the diagram. -/
theorem mermaid_hard_failure_isolation_counterexample :
    (convert_md_to_format envC3).1 = true
    ∧ Block.errorPlaceholder (strChars "Mermaid") (strChars "Parse error on line 1")
        ∈ (convert_md_to_format envC3).2 := by
  decide

theorem mermaid_hard_failure_isolation_witness :
    ∃ j c msg,
      c ∈ mermaidCodes [Block.text (strChars "intro"), Block.mermaid (strChars "bad")]
      ∧ renderFailC3 c = (false, msg)
      ∧ replace_mermaid_pdf renderFailC3 0
          [Block.text (strChars "intro"), Block.mermaid (strChars "bad")] =
          .error (strChars "Mermaid diagram " ++ natChars j
            ++ strChars " failed to render: " ++ msg) :=
  mermaid_hard_failure_isolation.1 renderFailC3
    [Block.text (strChars "intro"), Block.mermaid (strChars "bad")] 0
    ⟨strChars "bad", by decide, by decide⟩

end MDPDF

namespace MDPDF

/-! ## Browser session teardown

`MarkdownToPDFConverter._close_browser` (converter.py:197-225) grabs the
page/browser/playwright handles, nulls all three state fields first, then
attempts each teardown step in its own `try`/`except` that swallows the
failure. `MarkdownToEbookConverter._close_browser`
(ebook_converter.py:194-210) instead wraps all three steps in one
`try`/`except` and nulls each handle only after its close succeeds. The
environment records what each external call would report: liveness checks
and whether each close call raises. -/

structure BrowserState where
  page : Option Nat
  browser : Option Nat
  playwright : Option Nat
deriving DecidableEq, Repr

structure CloseEnv where
  pageIsClosed : Bool
  browserConnected : Bool
  pageCloseFails : Bool
  browserCloseFails : Bool
  playwrightStopFails : Bool
deriving DecidableEq, Repr

inductive CloseStep where
  | closePage (handle : Nat)
  | closeBrowser (handle : Nat)
  | stopPlaywright (handle : Nat)
deriving DecidableEq, Repr

/-- The function `_close_browser` of converter.py:197-225: handles nulled before any
close; each of the three steps attempted in its own try block with its
failure swallowed, so the attempted steps depend only on the grabbed
handles and the liveness checks, never on earlier failures. Returns the
new state and the list of close calls attempted. -/
def close_browser_pdf (st : BrowserState) (env : CloseEnv) :
    BrowserState × List CloseStep :=
  let acts1 : List CloseStep :=
    match st.page with
    | some h => if env.pageIsClosed then [] else [.closePage h]
    | none => []
  let acts2 : List CloseStep :=
    match st.browser with
    | some h => if env.browserConnected then [.closeBrowser h] else []
    | none => []
  let acts3 : List CloseStep :=
    match st.playwright with
    | some h => [.stopPlaywright h]
    | none => []
  (⟨none, none, none⟩, acts1 ++ acts2 ++ acts3)

/-- Third stage of the ebook close: `await tls.playwright.stop()` then
`tls.playwright = None` (ebook_converter.py:205-207). -/
def closeEbookStage3 (st : BrowserState) (env : CloseEnv) (acts : List CloseStep) :
    BrowserState × List CloseStep :=
  match st.playwright with
  | some h =>
    if env.playwrightStopFails then (st, acts ++ [.stopPlaywright h])
    else (⟨st.page, st.browser, none⟩, acts ++ [.stopPlaywright h])
  | none => (st, acts)

/-- Second stage of the ebook close: close the browser if connected, null
it afterwards; a raise aborts the remaining stage
(ebook_converter.py:202-204). -/
def closeEbookStage2 (st : BrowserState) (env : CloseEnv) (acts : List CloseStep) :
    BrowserState × List CloseStep :=
  match st.browser with
  | some h =>
    if env.browserConnected then
      if env.browserCloseFails then (st, acts ++ [.closeBrowser h])
      else closeEbookStage3 ⟨st.page, none, st.playwright⟩ env (acts ++ [.closeBrowser h])
    else closeEbookStage3 st env acts
  | none => closeEbookStage3 st env acts

/-- The function `_close_browser` of ebook_converter.py:194-210: one surrounding
`try`/`except`; page closed and then nulled, then browser, then
playwright; the first raising step leaves every remaining handle set and
skips the remaining steps (the exception is swallowed at the top). -/
def close_browser_ebook (st : BrowserState) (env : CloseEnv) :
    BrowserState × List CloseStep :=
  match st.page with
  | some h =>
    if env.pageIsClosed then closeEbookStage2 st env []
    else if env.pageCloseFails then (st, [.closePage h])
    else closeEbookStage2 ⟨none, st.browser, st.playwright⟩ env [.closePage h]
  | none => closeEbookStage2 st env []

/-- Session state holding all three live handles. -/
def stC6 : BrowserState := ⟨some 1, some 2, some 3⟩

/-- A crash while closing the page. -/
def envC6 : CloseEnv := ⟨false, true, true, false, false⟩

/-- A second close call on which nothing fails. -/
def envC6b : CloseEnv := ⟨false, true, false, false, false⟩

/-- C6 counterexample: in the ebook converter's `_close_browser`, a crash
mid-close leaves every handle still set (they are not nulled before the
close is attempted), skips the browser and playwright teardown steps
(they are not attempted independently), and a retry re-issues a close on
the very same page handle — a double-close. -/
theorem close_idempotent_counterexample :
    (close_browser_ebook stC6 envC6).1 = stC6
    ∧ (close_browser_ebook stC6 envC6).2 = [CloseStep.closePage 1]
    ∧ CloseStep.closePage 1 ∈
        (close_browser_ebook (close_browser_ebook stC6 envC6).1 envC6b).2 := by
  decide

/-- C6 (amended, PDF side): the PDF converter's `_close_browser` always
leaves all three handles nulled; a second close after any first close
attempts no teardown call (idempotence, no double-close); and the set of
attempted teardown steps is independent of which steps fail — each step's
failure is swallowed without affecting the others. -/
theorem close_browser_idempotent :
    ∀ (st : BrowserState) (env env₂ : CloseEnv),
      (close_browser_pdf st env).1 = ⟨none, none, none⟩
      ∧ (close_browser_pdf (close_browser_pdf st env).1 env₂).2 = []
      ∧ (env.pageIsClosed = env₂.pageIsClosed →
          env.browserConnected = env₂.browserConnected →
          (close_browser_pdf st env).2 = (close_browser_pdf st env₂).2) := by
  intro st env env₂
  refine ⟨rfl, rfl, ?_⟩
  intro h1 h2
  unfold close_browser_pdf
  rw [h1, h2]

theorem close_browser_idempotent_witness :
    (close_browser_pdf stC6 envC6).1 = ⟨none, none, none⟩
    ∧ (close_browser_pdf (close_browser_pdf stC6 envC6).1 envC6b).2 = []
    ∧ (close_browser_pdf stC6 envC6).2 = (close_browser_pdf stC6 envC6b).2 :=
  ⟨(close_browser_idempotent stC6 envC6 envC6b).1,
   (close_browser_idempotent stC6 envC6 envC6b).2.1,
   (close_browser_idempotent stC6 envC6 envC6b).2.2 rfl rfl⟩

end MDPDF

namespace MDPDF

/-! ## Final-artifact production with crash retry

`MarkdownToPDFConverter._convert_html_to_pdf` (converter.py:1485-1547)
makes up to 2 attempts: an error whose text contains one of the crash
indicators, with an attempt remaining, force-closes the browser and
retries once; any other failure, or a failure on the final attempt,
returns `False`. `MarkdownToEbookConverter._convert_html_to_pdf`
(ebook_converter.py:1346-1387) has a single `try` with no retry. -/

/-- The crash-indicator set (converter.py:1534-1537); matching is a
case-sensitive substring test against `str(e)`. -/
def crash_indicators : List (List Char) :=
  [strChars "Connection closed", strChars "Browser has been closed",
   strChars "Target closed", strChars "crashed", strChars "Protocol error"]

def is_crash (msg : List Char) : Bool :=
  crash_indicators.any fun kw => containsSub msg kw

structure HtmlPdfOutcome where
  success : Bool
  attemptsUsed : Nat
  browserRestarts : Nat
deriving DecidableEq, Repr

/-- The `for attempt in range(1, max_attempts + 1)` loop of
converter.py:1492-1547; the environment gives each attempt's result:
written PDF bytes, or the raised error's text. -/
def convert_html_to_pdf_go (attemptResult : Nat → Except (List Char) (List Nat))
    (maxAttempts : Nat) : Nat → Nat → Nat → HtmlPdfOutcome
  | 0, attempt, restarts => ⟨false, attempt - 1, restarts⟩
  | fuel + 1, attempt, restarts =>
    match attemptResult attempt with
    | .ok _ => ⟨true, attempt, restarts⟩
    | .error msg =>
      if is_crash msg && decide (attempt < maxAttempts) then
        convert_html_to_pdf_go attemptResult maxAttempts fuel (attempt + 1) (restarts + 1)
      else ⟨false, attempt, restarts⟩

/-- The function `_convert_html_to_pdf` of converter.py with `max_attempts = 2`. -/
def convert_html_to_pdf (attemptResult : Nat → Except (List Char) (List Nat)) :
    HtmlPdfOutcome :=
  convert_html_to_pdf_go attemptResult 2 2 1 0

/-- The function `_convert_html_to_pdf` of ebook_converter.py:1346-1387: one attempt,
any exception returns `False`, no relaunch. -/
def convert_html_to_pdf_ebook (attemptResult : Nat → Except (List Char) (List Nat)) :
    HtmlPdfOutcome :=
  match attemptResult 1 with
  | .ok _ => ⟨true, 1, 0⟩
  | .error _ => ⟨false, 1, 0⟩

/-- C7 (amended, PDF side): a first-attempt error matching a crash
indicator force-relaunches once and retries, the overall result being that
of the second attempt with 2 attempts and 1 restart; a non-crash error
fails immediately after 1 attempt with no restart; a first-attempt
success uses exactly 1 attempt and no restart (so a crash on the second
attempt fails — no further retry is possible). -/
theorem html_pdf_crash_retry :
    (∀ (tr : Nat → Except (List Char) (List Nat)) (msg : List Char),
      tr 1 = .error msg → is_crash msg = true →
      convert_html_to_pdf tr =
        match tr 2 with
        | .ok _ => ⟨true, 2, 1⟩
        | .error _ => ⟨false, 2, 1⟩)
    ∧ (∀ (tr : Nat → Except (List Char) (List Nat)) (msg : List Char),
      tr 1 = .error msg → is_crash msg = false →
      convert_html_to_pdf tr = ⟨false, 1, 0⟩)
    ∧ (∀ (tr : Nat → Except (List Char) (List Nat)) (b : List Nat),
      tr 1 = .ok b → convert_html_to_pdf tr = ⟨true, 1, 0⟩) := by
  refine ⟨?_, ?_, ?_⟩
  · intro tr msg h1 hc
    unfold convert_html_to_pdf
    rw [convert_html_to_pdf_go, h1]
    simp only [hc, Bool.true_and, decide_eq_true_eq]
    rw [if_pos (by norm_num)]
    rw [convert_html_to_pdf_go]
    rcases h2 : tr 2 with e | b <;> simp [is_crash]
  · intro tr msg h1 hc
    unfold convert_html_to_pdf
    rw [convert_html_to_pdf_go, h1]
    simp [hc]
  · intro tr b h1
    unfold convert_html_to_pdf
    rw [convert_html_to_pdf_go, h1]

/-- First attempt crashes with a matching indicator; the retry succeeds. -/
def trC7 : Nat → Except (List Char) (List Nat)
  | 1 => .error (strChars "Target closed")
  | _ => .ok [1]

/-- C7 counterexample: on the same crash-then-recover trace the converter's
production call retries once and succeeds (2 attempts, 1 relaunch), but
the ebook converter's production call reports failure after exactly 1
attempt with no relaunch, although the error matches a crash indicator and
an attempt remained. -/
theorem html_pdf_crash_retry_counterexample :
    is_crash (strChars "Target closed") = true
    ∧ convert_html_to_pdf trC7 = ⟨true, 2, 1⟩
    ∧ convert_html_to_pdf_ebook trC7 = ⟨false, 1, 0⟩ := by
  decide

theorem html_pdf_crash_retry_witness :
    convert_html_to_pdf trC7 =
      match trC7 2 with
      | .ok _ => ⟨true, 2, 1⟩
      | .error _ => ⟨false, 2, 1⟩ :=
  html_pdf_crash_retry.1 trC7 (strChars "Target closed") rfl (by decide)

end MDPDF
